import Mathlib

/-!
Verification of the mortgage calculator in `src/src/App.tsx`.

The repository's only algorithmic content is the pure function
`calculateMonthlyPrincipalAndInterest`, the fixed option table `LOAN_TERMS`
with its selection handler, and a few configuration constants.  We embed the
numeric code over `ℚ` (the source works on JavaScript numbers; all claims are
about the exact arithmetic the formulas denote), with the loan term in years
as a natural number, matching the closed enumerated term set 15/20/30.
-/

namespace Mortgage

/-- Embeds `type LoanTermOption = { label: string; years: number }`
(App.tsx lines 3–6); the `years` field only ever holds the enumerated
whole-year values, so it is embedded as `ℕ`. -/
structure LoanTermOption where
  label : String
  years : ℕ
deriving DecidableEq

/-- Embeds `LOAN_TERMS` (App.tsx lines 8–12). -/
def LOAN_TERMS : List LoanTermOption :=
  [⟨"15 years (fix)", 15⟩, ⟨"20 years (fix)", 20⟩, ⟨"30 years (fix)", 30⟩]

/-- Embeds `DEFAULT_TERM = LOAN_TERMS[1]` (App.tsx line 17). -/
def DEFAULT_TERM : LoanTermOption := LOAN_TERMS.get ⟨1, by decide⟩

/-- Embeds `const monthlyRate = annualRatePercent / 100 / 12`
(App.tsx line 31). -/
def monthlyRate (annualRatePercent : ℚ) : ℚ :=
  annualRatePercent / 100 / 12

/-- Embeds `const n = years * 12` (App.tsx line 32): the total number of
monthly installments. -/
def installments (years : ℕ) : ℕ :=
  years * 12

/-- Embeds `const denominator = Math.pow(1 + monthlyRate, n) - 1`
(App.tsx line 39), the divisor of the annuity formula. -/
def annuityDenominator (r : ℚ) (n : ℕ) : ℚ :=
  (1 + r) ^ n - 1

/-- Embeds `calculateMonthlyPrincipalAndInterest` (App.tsx lines 22–41). -/
def calculateMonthlyPrincipalAndInterest
    (purchasePrice downPayment annualRatePercent : ℚ) (years : ℕ) : ℚ :=
  let loanAmount := max (purchasePrice - downPayment) 0
  if loanAmount = 0 then 0
  else
    let r := monthlyRate annualRatePercent
    let n := installments years
    if r = 0 then loanAmount / (n : ℚ)
    else
      let numerator := r * (1 + r) ^ n
      loanAmount * (numerator / annuityDenominator r n)

/-- Embeds the `onChange` handler of the loan-length `<select>`
(App.tsx lines 178–184): look the numeric value up in `LOAN_TERMS` by its
`years` field, falling back to `DEFAULT_TERM` when no option matches
(`selected || DEFAULT_TERM`).  The raw value is a JavaScript number, hence
`ℚ` here, compared against each option's `years`. -/
def selectTerm (value : ℚ) : LoanTermOption :=
  (LOAN_TERMS.find? (fun t => ((t.years : ℚ) == value))).getD DEFAULT_TERM

/-- The present value of an `n`-installment annuity of 1 per month at monthly
rate `r`: `∑ k in 1..n, (1/(1+r))^k`.  Auxiliary quantity used to reason
about the annuity formula uniformly across the zero-rate branch. -/
def annuityPV (r : ℚ) (n : ℕ) : ℚ :=
  ∑ k ∈ Finset.range n, (1 / (1 + r)) ^ (k + 1)

/-- The outstanding balance after `k` monthly payments of `P` on an initial
balance `L` at monthly rate `r`: `balance (k+1) = balance k * (1+r) - P`
(the spec's amortization-correctness simulation). -/
def balance (r P L : ℚ) : ℕ → ℚ
  | 0 => L
  | k + 1 => balance r P L k * (1 + r) - P

end Mortgage

namespace Mortgage

/-- A positive term yields a positive number of installments. -/
lemma installments_pos {years : ℕ} (hy : 0 < years) : 0 < installments years := by
  unfold installments; omega

/-- Unfolding of the calculator on the positive-loan, positive-rate path:
shared between the formula claim and the amortization claim. -/
lemma calculate_eq_formula (pp dp rate : ℚ) (years : ℕ)
    (hL : max (pp - dp) 0 ≠ 0) (hr : monthlyRate rate ≠ 0) :
    calculateMonthlyPrincipalAndInterest pp dp rate years =
      max (pp - dp) 0 *
        ((monthlyRate rate * (1 + monthlyRate rate) ^ installments years) /
          ((1 + monthlyRate rate) ^ installments years - 1)) := by
  rw [calculateMonthlyPrincipalAndInterest, if_neg hL, if_neg hr]
  simp only [annuityDenominator]

/-- Closed form of the balance recurrence at a nonzero rate. -/
lemma balance_closed (r P L : ℚ) (hr : r ≠ 0) (k : ℕ) :
    balance r P L k = (L - P / r) * (1 + r) ^ k + P / r := by
  induction k with
  | zero => simp [balance]
  | succ k ih =>
    rw [balance, ih]
    field_simp
    ring

/-- With a zero rate the annuity present value is just the number of
installments. -/
lemma annuityPV_zero (n : ℕ) : annuityPV 0 n = n := by
  simp [annuityPV]

/-- Geometric-series closed form of the annuity present value at a nonzero
rate. -/
lemma annuityPV_eq (r : ℚ) (hr : r ≠ 0) (h1r : 1 + r ≠ 0) (n : ℕ) :
    annuityPV r n = ((1 + r) ^ n - 1) / (r * (1 + r) ^ n) := by
  induction n with
  | zero => simp [annuityPV]
  | succ n ih =>
    have hpow : (1 + r) ^ n ≠ 0 := pow_ne_zero _ h1r
    rw [annuityPV, Finset.sum_range_succ, ← annuityPV, ih]
    field_simp
    ring

/-- The annuity present value is positive for a nonnegative rate and at least
one installment. -/
lemma annuityPV_pos (r : ℚ) (hr : 0 ≤ r) (n : ℕ) (hn : 0 < n) :
    0 < annuityPV r n := by
  have h1r : (0 : ℚ) < 1 + r := by linarith
  refine Finset.sum_pos (fun k _ => ?_) ?_
  · positivity
  · exact Finset.nonempty_range_iff.mpr (by omega)

/-- The annuity present value is antitone in the rate over nonnegative
rates. -/
lemma annuityPV_antitone (r₁ r₂ : ℚ) (h₁ : 0 ≤ r₁) (h₁₂ : r₁ ≤ r₂) (n : ℕ) :
    annuityPV r₂ n ≤ annuityPV r₁ n := by
  refine Finset.sum_le_sum (fun k _ => ?_)
  have ha : (0 : ℚ) < 1 + r₁ := by linarith
  have hb : (0 : ℚ) < 1 + r₂ := by linarith
  have hinv : 1 / (1 + r₂) ≤ 1 / (1 + r₁) :=
    one_div_le_one_div_of_le ha (by linarith)
  exact pow_le_pow_left₀ (by positivity) hinv _

/-- The calculator, on a positive term and nonnegative rate, is division of
the clamped loan amount by the annuity present value; this covers the
zero-loan, zero-rate, and positive-rate branches at once. -/
lemma calculate_eq_div_annuityPV
    (purchasePrice downPayment annualRatePercent : ℚ) (years : ℕ)
    (hy : 0 < years) (hrate : 0 ≤ annualRatePercent) :
    calculateMonthlyPrincipalAndInterest
        purchasePrice downPayment annualRatePercent years =
      max (purchasePrice - downPayment) 0 /
        annuityPV (monthlyRate annualRatePercent) (installments years) := by
  have hn : 0 < installments years := by
    simp [installments]; omega
  have hr0 : 0 ≤ monthlyRate annualRatePercent := by
    unfold monthlyRate; positivity
  rw [calculateMonthlyPrincipalAndInterest]
  by_cases hL0 : max (purchasePrice - downPayment) 0 = 0
  · rw [if_pos hL0, hL0, zero_div]
  · rw [if_neg hL0]
    by_cases hr : monthlyRate annualRatePercent = 0
    · rw [if_pos hr, hr, annuityPV_zero]
    · rw [if_neg hr]
      have hrpos : 0 < monthlyRate annualRatePercent := lt_of_le_of_ne hr0 (Ne.symm hr)
      have h1r : (0 : ℚ) < 1 + monthlyRate annualRatePercent := by linarith
      rw [annuityPV_eq _ hr (by linarith) _]
      have hpow : (0 : ℚ) < (1 + monthlyRate annualRatePercent) ^ installments years := by
        positivity
      have hpow1 : (1 : ℚ) < (1 + monthlyRate annualRatePercent) ^ installments years :=
        one_lt_pow₀ (by linarith) (by omega)
      have hden : annuityDenominator (monthlyRate annualRatePercent) (installments years) ≠ 0 := by
        unfold annuityDenominator; linarith
      unfold annuityDenominator at *
      field_simp

/-- C1: for every purchasePrice, downPayment, annualRatePercent and termYears
with loanAmount = max(purchasePrice - downPayment, 0) > 0 and
monthlyRate = annualRatePercent / 100 / 12 > 0, and n = termYears * 12,
`calculateMonthlyPrincipalAndInterest` returns
loanAmount * [monthlyRate * (1+monthlyRate)^n] / [(1+monthlyRate)^n - 1]. -/
theorem calculate_pos_rate_annuity_formula
    (purchasePrice downPayment annualRatePercent : ℚ) (years : ℕ)
    (hL : 0 < max (purchasePrice - downPayment) 0)
    (hr : 0 < monthlyRate annualRatePercent) :
    calculateMonthlyPrincipalAndInterest
        purchasePrice downPayment annualRatePercent years =
      max (purchasePrice - downPayment) 0 *
        ((monthlyRate annualRatePercent *
            (1 + monthlyRate annualRatePercent) ^ installments years) /
          ((1 + monthlyRate annualRatePercent) ^ installments years - 1)) :=
  calculate_eq_formula _ _ _ _ (ne_of_gt hL) (ne_of_gt hr)

/-- Witness for C1 at purchasePrice = 100, downPayment = 0, rate = 12%,
term = 1 year. -/
theorem calculate_pos_rate_annuity_formula_witness :
    calculateMonthlyPrincipalAndInterest 100 0 12 1 =
      max (100 - 0 : ℚ) 0 *
        ((monthlyRate 12 * (1 + monthlyRate 12) ^ installments 1) /
          ((1 + monthlyRate 12) ^ installments 1 - 1)) :=
  calculate_pos_rate_annuity_formula 100 0 12 1 (by norm_num)
    (by norm_num [monthlyRate])

/-- C2: for a positive clamped loan amount, a positive monthly rate and a
positive integer term, iterating balance(k+1) = balance(k)*(1+monthlyRate) - P
with P the computed payment reduces the balance to exactly 0 after
n = termYears * 12 installments, over exact arithmetic. -/
theorem calculate_fully_amortizes
    (purchasePrice downPayment annualRatePercent : ℚ) (years : ℕ)
    (hL : 0 < max (purchasePrice - downPayment) 0)
    (hr : 0 < monthlyRate annualRatePercent)
    (hy : 0 < years) :
    balance (monthlyRate annualRatePercent)
        (calculateMonthlyPrincipalAndInterest
          purchasePrice downPayment annualRatePercent years)
        (max (purchasePrice - downPayment) 0)
        (installments years) = 0 := by
  have h1r : (0 : ℚ) < 1 + monthlyRate annualRatePercent := by linarith
  have hpow1 :
      (1 : ℚ) < (1 + monthlyRate annualRatePercent) ^ installments years :=
    one_lt_pow₀ (by linarith) (by have := installments_pos hy; omega)
  have hden :
      (1 + monthlyRate annualRatePercent) ^ installments years - 1 ≠ 0 := by
    linarith
  rw [calculate_eq_formula _ _ _ _ (ne_of_gt hL) (ne_of_gt hr),
    balance_closed _ _ _ (ne_of_gt hr)]
  field_simp
  ring

/-- Witness for C2 at purchasePrice = 100, downPayment = 0, rate = 12%,
term = 1 year. -/
theorem calculate_fully_amortizes_witness :
    balance (monthlyRate 12) (calculateMonthlyPrincipalAndInterest 100 0 12 1)
      (max (100 - 0 : ℚ) 0) (installments 1) = 0 :=
  calculate_fully_amortizes 100 0 12 1 (by norm_num)
    (by norm_num [monthlyRate]) (by decide)

/-- C3: with the rate fixed and nonnegative and the term positive, the result
is non-decreasing in the clamped loan amount max(purchasePrice-downPayment,0);
and with purchasePrice, downPayment and the term fixed, the result is
non-decreasing in the annual rate over nonnegative rates, across the
zero-rate branch boundary included. -/
theorem calculate_monotone :
    (∀ (years : ℕ) (rate pp₁ dp₁ pp₂ dp₂ : ℚ), 0 < years → 0 ≤ rate →
        max (pp₁ - dp₁) 0 ≤ max (pp₂ - dp₂) 0 →
        calculateMonthlyPrincipalAndInterest pp₁ dp₁ rate years ≤
          calculateMonthlyPrincipalAndInterest pp₂ dp₂ rate years) ∧
    (∀ (years : ℕ) (pp dp rate₁ rate₂ : ℚ), 0 < years → 0 ≤ rate₁ →
        rate₁ ≤ rate₂ →
        calculateMonthlyPrincipalAndInterest pp dp rate₁ years ≤
          calculateMonthlyPrincipalAndInterest pp dp rate₂ years) := by
  constructor
  · intro years rate pp₁ dp₁ pp₂ dp₂ hy hr hLe
    rw [calculate_eq_div_annuityPV _ _ _ _ hy hr,
      calculate_eq_div_annuityPV _ _ _ _ hy hr]
    have hPV : 0 < annuityPV (monthlyRate rate) (installments years) :=
      annuityPV_pos _ (by unfold monthlyRate; positivity) _
        (installments_pos hy)
    gcongr
  · intro years pp dp rate₁ rate₂ hy hr₁ h₁₂
    have hr₂ : 0 ≤ rate₂ := le_trans hr₁ h₁₂
    rw [calculate_eq_div_annuityPV _ _ _ _ hy hr₁,
      calculate_eq_div_annuityPV _ _ _ _ hy hr₂]
    have hm₁ : 0 ≤ monthlyRate rate₁ := by unfold monthlyRate; positivity
    have hm₁₂ : monthlyRate rate₁ ≤ monthlyRate rate₂ := by
      unfold monthlyRate; linarith
    have hPV₂ : 0 < annuityPV (monthlyRate rate₂) (installments years) :=
      annuityPV_pos _ (by unfold monthlyRate; positivity) _
        (installments_pos hy)
    have hanti :
        annuityPV (monthlyRate rate₂) (installments years) ≤
          annuityPV (monthlyRate rate₁) (installments years) :=
      annuityPV_antitone _ _ hm₁ hm₁₂ _
    gcongr

/-- Witness for C3: both monotonicity directions at concrete inputs
(loan 100 vs 200 at rate 12%, and rate 12% vs 24% on loan 100, term
1 year). -/
theorem calculate_monotone_witness :
    calculateMonthlyPrincipalAndInterest 100 0 12 1 ≤
        calculateMonthlyPrincipalAndInterest 200 0 12 1 ∧
      calculateMonthlyPrincipalAndInterest 100 0 12 1 ≤
        calculateMonthlyPrincipalAndInterest 100 0 24 1 :=
  ⟨calculate_monotone.1 1 12 100 0 200 0 (by decide) (by norm_num)
      (by norm_num),
    calculate_monotone.2 1 100 0 12 24 (by decide) (by norm_num)
      (by norm_num)⟩

/-- C4: with a zero annual rate and a positive integer term, the calculator
returns the clamped loan amount divided by termYears * 12. -/
theorem calculate_zero_rate (purchasePrice downPayment : ℚ) (years : ℕ)
    (hy : 0 < years) :
    calculateMonthlyPrincipalAndInterest purchasePrice downPayment 0 years =
      max (purchasePrice - downPayment) 0 / ((years : ℚ) * 12) := by
  have hr : monthlyRate 0 = 0 := by norm_num [monthlyRate]
  rw [calculateMonthlyPrincipalAndInterest]
  by_cases hL : max (purchasePrice - downPayment) 0 = 0
  · rw [if_pos hL, hL, zero_div]
  · rw [if_neg hL, if_pos hr, installments]
    push_cast
    ring_nf

/-- Witness for C4: the spec's concrete zero-rate scenario,
purchasePrice = 120000, downPayment = 0, term = 15 years. -/
theorem calculate_zero_rate_witness :
    calculateMonthlyPrincipalAndInterest 120000 0 0 15 =
      max (120000 - 0 : ℚ) 0 / ((15 : ℚ) * 12) :=
  calculate_zero_rate 120000 0 15 (by decide)

/-- C5: when purchasePrice ≤ downPayment the clamped loan amount is 0 and the
calculator returns 0, for every rate and term. -/
theorem calculate_zero_loan (purchasePrice downPayment annualRatePercent : ℚ)
    (years : ℕ) (h : purchasePrice ≤ downPayment) :
    calculateMonthlyPrincipalAndInterest
      purchasePrice downPayment annualRatePercent years = 0 := by
  rw [calculateMonthlyPrincipalAndInterest,
    if_pos (max_eq_right (by linarith))]

/-- Witness for C5: the spec's concrete scenario purchasePrice = 100000 =
downPayment, with a nonzero rate and term. -/
theorem calculate_zero_loan_witness :
    calculateMonthlyPrincipalAndInterest 100000 100000 5 30 = 0 :=
  calculate_zero_loan 100000 100000 5 30 (by norm_num)

/-- C6: for a positive term and nonnegative rate, both divisors the
calculator can use are nonzero: the installment count n = years * 12, and
the annuity denominator (1+monthlyRate)^n - 1 when the monthly rate is
positive; so no division by zero is reachable. -/
theorem divisors_nonzero (annualRatePercent : ℚ) (years : ℕ)
    (hy : 0 < years) (hr : 0 ≤ annualRatePercent) :
    ((installments years : ℚ) ≠ 0) ∧
      (0 < monthlyRate annualRatePercent →
        annuityDenominator (monthlyRate annualRatePercent)
            (installments years) ≠ 0) := by
  constructor
  · exact Nat.cast_ne_zero.mpr (by have := installments_pos hy; omega)
  · intro hm
    have hpow1 :
        (1 : ℚ) < (1 + monthlyRate annualRatePercent) ^ installments years :=
      one_lt_pow₀ (by linarith) (by have := installments_pos hy; omega)
    unfold annuityDenominator
    linarith

/-- Witness for C6 at rate = 5%, term = 15 years. -/
theorem divisors_nonzero_witness :
    ((installments 15 : ℚ) ≠ 0) ∧
      (0 < monthlyRate 5 →
        annuityDenominator (monthlyRate 5) (installments 15) ≠ 0) :=
  divisors_nonzero 5 15 (by decide) (by norm_num)

/-- C7: on the default scenario purchasePrice = 990000, downPayment = 22002,
rate = 4.264%, term = 20 years, the clamped loan amount is 967998, the
installment count is 240, and the computed monthly principal-and-interest
value lies strictly between 6000 and 6100. -/
theorem default_scenario_bounds :
    max (990000 - 22002 : ℚ) 0 = 967998 ∧ installments 20 = 240 ∧
      6000 < calculateMonthlyPrincipalAndInterest 990000 22002
        (4264 / 1000) 20 ∧
      calculateMonthlyPrincipalAndInterest 990000 22002 (4264 / 1000) 20 <
        6100 := by
  have hL : max (990000 - 22002 : ℚ) 0 ≠ 0 := by
    rw [max_eq_left (by norm_num)]; norm_num
  have hr : monthlyRate (4264 / 1000) ≠ 0 := by norm_num [monthlyRate]
  have heq := calculate_eq_formula 990000 22002 (4264 / 1000) 20 hL hr
  rw [max_eq_left (by norm_num)] at heq
  refine ⟨by rw [max_eq_left (by norm_num)]; norm_num,
    by norm_num [installments], ?_, ?_⟩ <;>
    · rw [heq]
      norm_num [monthlyRate, installments]

/-- C8: the loan-term selection handler maps each of the three enumerated
year values 15, 20 and 30 to its `LOAN_TERMS` option, and every other
numeric value to `DEFAULT_TERM`. -/
theorem selectTerm_spec (v : ℚ) :
    selectTerm v =
      if v = 15 then ⟨"15 years (fix)", 15⟩
      else if v = 20 then ⟨"20 years (fix)", 20⟩
      else if v = 30 then ⟨"30 years (fix)", 30⟩
      else DEFAULT_TERM := by
  by_cases h15 : v = 15
  · rw [if_pos h15, h15]; rfl
  · rw [if_neg h15]
    by_cases h20 : v = 20
    · rw [if_pos h20, h20]; rfl
    · rw [if_neg h20]
      by_cases h30 : v = 30
      · rw [if_pos h30, h30]; rfl
      · rw [if_neg h30]
        have e15 : ((15 : ℚ) == v) = false :=
          beq_eq_false_iff_ne.mpr (Ne.symm h15)
        have e20 : ((20 : ℚ) == v) = false :=
          beq_eq_false_iff_ne.mpr (Ne.symm h20)
        have e30 : ((30 : ℚ) == v) = false :=
          beq_eq_false_iff_ne.mpr (Ne.symm h30)
        simp [selectTerm, LOAN_TERMS, List.find?, e15, e20, e30]

/-- C9: for a nonnegative rate and positive integer term, the computed
monthly payment is never negative. -/
theorem calculate_nonneg (purchasePrice downPayment annualRatePercent : ℚ)
    (years : ℕ) (hy : 0 < years) (hr : 0 ≤ annualRatePercent) :
    0 ≤ calculateMonthlyPrincipalAndInterest
      purchasePrice downPayment annualRatePercent years := by
  rw [calculate_eq_div_annuityPV _ _ _ _ hy hr]
  have hPV :
      0 < annuityPV (monthlyRate annualRatePercent) (installments years) :=
    annuityPV_pos _ (by unfold monthlyRate; positivity) _
      (installments_pos hy)
  exact div_nonneg (le_max_right _ 0) (le_of_lt hPV)

/-- Witness for C9 at purchasePrice = 50, downPayment = 200 (fully clamped),
rate = 3%, term = 20 years. -/
theorem calculate_nonneg_witness :
    0 ≤ calculateMonthlyPrincipalAndInterest 50 200 3 20 :=
  calculate_nonneg 50 200 3 20 (by decide) (by norm_num)

/-- C10: the calculator depends on purchasePrice and downPayment only through
their difference: shifting both by the same amount leaves the result
unchanged. -/
theorem calculate_shift_invariant (purchasePrice downPayment d
    annualRatePercent : ℚ) (years : ℕ) :
    calculateMonthlyPrincipalAndInterest (purchasePrice + d) (downPayment + d)
        annualRatePercent years =
      calculateMonthlyPrincipalAndInterest purchasePrice downPayment
        annualRatePercent years := by
  rw [calculateMonthlyPrincipalAndInterest,
    calculateMonthlyPrincipalAndInterest,
    show purchasePrice + d - (downPayment + d) = purchasePrice - downPayment
      from by ring]

end Mortgage
